import Mathlib

/-!
Verification development for the isl C++ binding generator
(`interface/cpp.cc`).  The generator walks a map of extracted isl
classes and prints C++ wrapper code; the shallow embedding below
renders every printer as a Lean function producing the emitted text.
`osprintf` calls become string concatenation; the fatal `die` in the
type mapper becomes `none` of an `Option`; the member flag
`noexceptions` and the clang-derived helpers of `generator.cc` (which
is not part of the sources, only `cpp.cc` is) are threaded through a
small `Gen` record.  Braces inside emitted text are written with
`\x7b` / `\x7d` escapes.
-/

set_option maxRecDepth 100000

namespace IslCpp

/-- Model of a clang `QualType` as the generator inspects it.
`islObj name` is a pointer to an isl object type (`isl_set *`, ...);
the context type `isl_ctx *` is the special case `islObj "isl_ctx"`.
`callback takes cargs ret` is a pointer to a C callback function type
whose parameter types are `cargs` (the trailing `void *` user pointer
included, as in the C signature) and whose return type is `ret`;
`takes` records whether the callback takes its arguments
(`generator::callback_takes_arguments`, modelled from the spec's
adopt/duplicate distinction since `generator.cc` is not under the
sources).  `voidPtr` is a plain `void *`, which belongs to none of the
recognized categories of the type mapper. -/
inductive CType where
  | islObj (name : String)
  | islBool
  | islStat
  | enumTy (name : String)
  | intTy (name : String)
  | strTy
  | voidPtr
  | callback (takes : Bool) (cargs : List CType) (ret : CType)

/-- generator.cc `is_isl_type`: a pointer to an `isl_` object type
(the `isl_ctx` pointer included).  Modelled from the spec since
`generator.cc` is not under the sources. -/
def is_isl_type : CType → Bool
  | .islObj _ => true
  | _ => false

/-- generator.cc `is_isl_ctx` (modelled from the spec). -/
def is_isl_ctx : CType → Bool
  | .islObj n => n == "isl_ctx"
  | _ => false

/-- generator.cc `is_isl_bool` (modelled from the spec). -/
def is_isl_bool : CType → Bool
  | .islBool => true
  | _ => false

/-- generator.cc `is_isl_stat` (modelled from the spec). -/
def is_isl_stat : CType → Bool
  | .islStat => true
  | _ => false

/-- generator.cc `is_string` (modelled from the spec). -/
def is_string : CType → Bool
  | .strTy => true
  | _ => false

/-- generator.cc `is_callback` (modelled from the spec). -/
def is_callback : CType → Bool
  | .callback _ _ _ => true
  | _ => false

/-- clang `Type::isIntegerType` (modelled). -/
def isIntegerType : CType → Bool
  | .intTy _ => true
  | _ => false

/-- clang `Type::isEnumeralType` (modelled). -/
def isEnumeralType : CType → Bool
  | .enumTy _ => true
  | _ => false

/-- generator.cc `is_isl_enum` (modelled from the spec). -/
def is_isl_enum : CType → Bool := isEnumeralType

/-- clang `QualType::getAsString` (modelled renderings of the C
spellings the generator prints). -/
def getAsString : CType → String
  | .islObj n => n ++ " *"
  | .islBool => "isl_bool"
  | .islStat => "isl_stat"
  | .enumTy n => n
  | .intTy n => n
  | .strTy => "const char *"
  | .voidPtr => "void *"
  | .callback _ _ _ => "<function pointer>"

/-- The name of the pointee type (`getPointeeType().getAsString()`);
only meaningful on pointers to isl object types. -/
def pointeeName : CType → String
  | .islObj n => n
  | _ => ""

/-- cpp.cc line 45: `bool extensions = true;`. -/
def extensions : Bool := true

/-- cpp.cc `cpp_generator::isl_bool2cpp`. -/
def isl_bool2cpp (noexceptions : Bool) : String :=
  if noexceptions then "isl::boolean" else "bool"

/-- cpp.cc `cpp_generator::type2cpp(string)`: drop the `isl_` part
(four characters) of the type name. -/
def type2cppStr (type_str : String) : String := type_str.drop 4

/-- Position of the first occurrence of `pat` in `s`, if any
(`std::string::find`). -/
def findSubstrPos (s pat : String) : Option Nat :=
  (List.range (s.length + 1)).find? (fun i => (s.drop i).take pat.length == pat)

/-- `std::string::replace(find(pat), pat.length, rep)`: replace the
first occurrence of `pat`.  When `pat` does not occur the C++ call
would index with `npos` and throw; that case is unreachable for the
`isl_`-prefixed enum names the generator feeds it. -/
def replaceFirst (s pat rep : String) : String :=
  match findSubstrPos s pat with
  | some i => s.take i ++ rep ++ s.drop (i + pat.length)
  | none => s

/-- The enum rendering of `type2cpp` and of the enum return branch:
replace the first `isl_` by `isl::`. -/
def enum2cpp (s : String) : String := replaceFirst s "isl_" "isl::"

mutual

/-- cpp.cc `cpp_generator::type2cpp(QualType)`, lines 1699-1731.
`none` models the fatal `die("Cannot convert type to C++ type")`.
The dedicated `is_isl_ctx` extensions branch of the source is
subsumed by the `is_isl_type` branch (an `isl_ctx *` is an isl
type), exactly as in the source where it is likewise unreachable. -/
def type2cppQ (noexceptions : Bool) : CType → Option String
  | .islObj n => some ("isl::" ++ type2cppStr n)
  | .islBool => some (isl_bool2cpp noexceptions)
  | .islStat => some (if noexceptions then "isl::stat" else "void")
  | .enumTy n => if extensions then some (enum2cpp n) else none
  | .intTy n => some n
  | .strTy => some "std::string"
  | .voidPtr => none
  | .callback _ cargs ret => do
      let rt ← type2cppQ noexceptions ret
      let args ← cbArgsCpp noexceptions cargs
      some ("std::function<" ++ rt ++ "(" ++ args ++ ")>")

/-- The C++ argument list of `generate_callback_args(type, true)`:
every callback parameter except the trailing user pointer, rendered
through `type2cpp` and separated by `", "`. -/
def cbArgsCpp (noexceptions : Bool) : List CType → Option String
  | [] => some ""
  | [_] => some ""
  | t :: t2 :: ts => do
      let s ← type2cppQ noexceptions t
      let rest ← cbArgsCpp noexceptions (t2 :: ts)
      some (s ++ (if ts.isEmpty then "" else ", ") ++ rest)

end

/-- cpp.cc `cpp_generator::generate_callback_type`, lines 1443-1457. -/
def generate_callback_type (noexceptions : Bool) (t : CType) : Option String :=
  match t with
  | .callback _ cargs ret => do
      let rt ← type2cppQ noexceptions ret
      let args ← cbArgsCpp noexceptions cargs
      some ("std::function<" ++ rt ++ "(" ++ args ++ ")>")
  | _ => none

/-- The C argument list of `generate_callback_args(type, false)`:
all callback parameters, rendered as `<c type>arg_<i>`. -/
def cArgsC : Nat → List CType → String
  | _, [] => ""
  | i, [t] => getAsString t ++ "arg_" ++ toString i
  | i, t :: t2 :: ts =>
      getAsString t ++ "arg_" ++ toString i ++ ", " ++ cArgsC (i + 1) (t2 :: ts)

/-- cpp.cc `cpp_generator::generate_callback_args` with `cpp = false`. -/
def generate_callback_args_c (cargs : List CType) : String := cArgsC 0 cargs

/-- One parameter of an extracted isl function.  `keep` records the
`__isl_keep` annotation (`generator::keeps`, modelled as a field). -/
structure Param where
  name : String
  ty : CType
  keep : Bool

instance : Inhabited Param := ⟨⟨"", CType.voidPtr, false⟩⟩

/-- An extracted isl function (`clang::FunctionDecl` as the generator
uses it).  `cppName` is the method name with the class prefix and
overload suffix dropped (`isl_class::method_name`, modelled from the
spec as a precomputed field since `generator.h` is not under the
sources); `gives` records the `__isl_give` annotation of the return
(`generator::gives`). -/
structure FunctionDecl where
  name : String
  cppName : String
  retTy : CType
  gives : Bool
  params : List Param

/-- One extracted isl class (`isl_class` of `generator.h`, modelled
from its uses in cpp.cc and from the spec).  For a type-based
subclass, `name` is the C type of the superclass and `subclass_name`
the distinct name of the subclass; for a root class both coincide.
`type` stands for the clang record declaration of the C type (`none`
models a null pointer, as in a default-constructed entry). -/
structure IslClass where
  name : String
  subclass_name : String
  type : Option String
  fn_type : Option FunctionDecl
  fn_to_str : Option FunctionDecl
  fn_is_equal : Option FunctionDecl
  constructors : List FunctionDecl
  methods : List (String × List FunctionDecl)

/-- `isl_class::is_type_subclass` (modelled: a type subclass is
registered under a subclass name distinct from its C type name). -/
def IslClass.is_type_subclass (c : IslClass) : Bool := c.name != c.subclass_name

/-- cpp.cc `cpp_generator::type2cpp(const isl_class &)`: the name of
the type based subclass, if any. -/
def type2cppC (c : IslClass) : String := type2cppStr c.subclass_name

/-- cpp.cc `function_kind`. -/
inductive FunctionKind where
  | constructor
  | member
  | static
deriving DecidableEq

/-- The generator state the printers read: the `noexceptions` member
of `cpp_generator` and, for the subclass walk, the superclass names
`generator::find_superclasses(classes[name].type)` returns for a
given C type name together with a fuel bound on the walk (the C++
worklist loop is unbounded; fuel exhaustion is `none` below). -/
structure Gen where
  noexceptions : Bool
  supers : String → List String
  fuel : Nat

/-- cpp.cc `rename_map`, lines 1649-1652. -/
def rename_map : List (String × String) := [("union", "unite"), ("delete", "del")]

/-- cpp.cc `cpp_generator::rename_method`. -/
def rename_method (name : String) : String :=
  match rename_map.find? (fun e => e.1 == name) with
  | some e => e.2
  | none => name

/-- generator.cc `is_static` (modelled from the spec, section 4.2: a
function is a member method exactly when its first parameter type is
the wrapped type of the class). -/
def is_static (clazz : IslClass) (m : FunctionDecl) : Bool :=
  match m.params with
  | [] => true
  | p :: _ => !(is_isl_type p.ty && pointeeName p.ty == clazz.name)

/-- cpp.cc `cpp_generator::get_method_kind`, lines 1791-1798. -/
def get_method_kind (clazz : IslClass) (m : FunctionDecl) : FunctionKind :=
  if is_static clazz m then FunctionKind.static else FunctionKind.member

/-- cpp.cc `cpp_generator::super2sub`, lines 1145-1156, returning the
flag together with the (possibly replaced) type string instead of
mutating a reference. -/
def super2sub (clazz : IslClass) (ty : String) : Bool × String :=
  if !clazz.is_type_subclass then (false, ty)
  else if ty != "isl::" ++ type2cppStr clazz.name then (false, ty)
  else (true, "isl::" ++ type2cppC clazz)

/-- The worklist loop of cpp.cc `cpp_generator::is_subclass`, lines
1748-1760.  The C++ code pops candidates off the back of a vector and
pushes the candidate's superclasses; the list here is the same stack
with its top at the head.  The pointer comparison `&class_type ==
candidate` against map entries is modelled as comparison of the map
keys (class names).  `none` means the fuel ran out while the C++ loop
would still be running. -/
def is_subclass_go (g : Gen) (tgt : String) : Nat → List String → Option Bool
  | _, [] => some false
  | 0, _ :: _ => none
  | fuel + 1, c :: rest =>
      if c = tgt then some true
      else is_subclass_go g tgt fuel (g.supers c ++ rest)

/-- cpp.cc `cpp_generator::is_subclass`, lines 1735-1763: walk the
superclass names reachable from the pointee type of
`subclass_type`. -/
def is_subclass (g : Gen) (sub tgt : String) : Option Bool :=
  is_subclass_go g tgt g.fuel (g.supers sub)

/-- cpp.cc `cpp_generator::is_implicit_conversion`, lines 1771-1785.
The class under construction is identified by the key it is
registered under in the classes map (its `subclass_name`).  The
source reads `getParamDecl(0)` before the parameter-count check,
which is invalid for a function without parameters; the count check
then yields `false`, as modelled here. -/
def is_implicit_conversion (g : Gen) (clazz : IslClass) (cons : FunctionDecl) : Option Bool :=
  match cons.params with
  | [] => some false
  | p :: _ =>
      if cons.params.length != 1 then some false
      else if is_isl_type p.ty && !is_isl_ctx p.ty then
        is_subclass g (pointeeName p.ty) clazz.subclass_name
      else some false

/-- Concatenation of a list of emitted fragments. -/
def strJoin : List String → String
  | [] => ""
  | s :: rest => s ++ strJoin rest

/-- cpp.cc `print_throw_NULL_input`, lines 553-558. -/
def print_throw_NULL_input : String :=
  "    throw isl::exception::create(isl_error_invalid,\n        \"NULL input\", __FILE__, __LINE__);\n"

/-- The conditions collected by the loop of
`cpp_generator::print_argument_validity_check`, lines 981-1004:
`!ptr` for the receiver of a member method (parameter 0) and
`<name>.is_null()` for every parameter of isl object type other than
`isl_ctx`. -/
def validity_conds (kind : FunctionKind) : Nat → List Param → List String
  | _, [] => []
  | i, p :: ps =>
      let is_this := i == 0 && kind == FunctionKind.member
      if !is_this && (is_isl_ctx p.ty || !is_isl_type p.ty) then
        validity_conds kind (i + 1) ps
      else
        (if is_this then "!ptr" else p.name ++ ".is_null()")
          :: validity_conds kind (i + 1) ps

/-- cpp.cc `cpp_generator::print_argument_validity_check`, lines
972-1009.  The first/`" || "` printing of the loop is rendered as an
intercalation of the collected conditions. -/
def print_argument_validity_check (g : Gen) (m : FunctionDecl) (kind : FunctionKind) : String :=
  if g.noexceptions then ""
  else
    match validity_conds kind 0 m.params with
    | [] => ""
    | conds =>
        "  if (" ++ String.intercalate " || " conds ++ ")\n" ++ print_throw_NULL_input

/-- cpp.cc `cpp_generator::print_save_ctx`, lines 1023-1047.  The
source reads `getParamDecl(0)` before its early returns, which is
invalid for a function without parameters; that case prints
nothing. -/
def print_save_ctx (g : Gen) (m : FunctionDecl) (kind : FunctionKind) : String :=
  if g.noexceptions then ""
  else if kind == FunctionKind.member then ""
  else
    match m.params with
    | [] => ""
    | p0 :: _ =>
        if is_isl_ctx p0.ty then ""
        else
          match m.params.find? (fun p => is_isl_type p.ty) with
          | some p => "  auto ctx = " ++ p.name ++ ".get_ctx();\n"
          | none => ""

/-- cpp.cc `cpp_generator::print_method_ctx`, lines 1058-1070 (same
remark on `getParamDecl(0)` for an empty parameter list). -/
def print_method_ctx (m : FunctionDecl) (kind : FunctionKind) : String :=
  if kind == FunctionKind.member then "get_ctx()"
  else
    match m.params with
    | [] => "ctx"
    | p0 :: _ => if is_isl_ctx p0.ty then p0.name else "ctx"

/-- cpp.cc `cpp_generator::print_on_error_continue`, lines 1078-1086. -/
def print_on_error_continue (g : Gen) (m : FunctionDecl) (kind : FunctionKind) : String :=
  if g.noexceptions then ""
  else
    "  options_scoped_set_on_error saved_on_error("
      ++ print_method_ctx m kind ++ ", ISL_ON_ERROR_CONTINUE);\n"

/-- The rethrow statements of
`cpp_generator::print_exceptional_execution_check`, lines 1114-1125:
one per callback parameter, in parameter order. -/
def callback_rethrows (params : List Param) : String :=
  strJoin (params.filterMap (fun p =>
    if is_callback p.ty then
      some ("  if (" ++ p.name ++ "_data.eptr)\n    std::rethrow_exception("
        ++ p.name ++ "_data.eptr);\n")
    else none))

/-- The failed-result check of
`cpp_generator::print_exceptional_execution_check`, lines 1127-1138:
negative `isl_stat`/`isl_bool` results and null isl object results
throw the last error of the context. -/
def post_call_res_check (m : FunctionDecl) (kind : FunctionKind) : String :=
  let check_neg := is_isl_stat m.retTy || is_isl_bool m.retTy
  let check_null := is_isl_type m.retTy
  if !check_null && !check_neg then ""
  else
    (if check_neg then "  if (res < 0)\n" else "  if (!res)\n")
      ++ "    throw exception::create_from_last_error("
      ++ print_method_ctx m kind ++ ");\n"

/-- cpp.cc `cpp_generator::print_exceptional_execution_check`, lines
1104-1139: rethrow a callback exception captured in the per-callback
data structure, then check a failed return value. -/
def print_exceptional_execution_check (g : Gen) (m : FunctionDecl) (kind : FunctionKind) : String :=
  if g.noexceptions then ""
  else callback_rethrows m.params ++ post_call_res_check m kind

/-- cpp.cc `cpp_generator::print_wrapped_call_noexceptions`, lines
1474-1482. -/
def print_wrapped_call_noexceptions (call : String) (rtype : CType) : String :=
  "    auto ret = " ++ call ++ ";\n"
    ++ (if is_isl_stat rtype then "    return isl_stat(ret);\n"
        else "    return ret.release();\n")

/-- cpp.cc `cpp_generator::print_wrapped_call`, lines 1519-1546. -/
def print_wrapped_call (g : Gen) (call : String) (rtype : CType) : String :=
  if g.noexceptions then print_wrapped_call_noexceptions call rtype
  else
    "    try \x7b\n"
      ++ (if is_isl_stat rtype then "      " ++ call ++ ";\n"
          else "      auto ret = " ++ call ++ ";\n")
      ++ (if is_isl_stat rtype then "      return isl_stat_ok;\n"
          else if is_isl_bool rtype then
            "      return ret ? isl_bool_true : isl_bool_false;\n"
          else "      return ret.release();\n")
      ++ "    \x7d catch (...) \x7b\n      data->eptr = std::current_exception();\n"
      ++ (if is_isl_stat rtype then "      return isl_stat_error;\n"
          else if is_isl_bool rtype then "      return isl_bool_error;\n"
          else "      return NULL;\n")
      ++ "    \x7d\n"

/-- The argument list of the wrapped closure call built by
`print_callback_local`, lines 1619-1629: one `isl::manage(arg_i)` (or
`isl::manage_copy(arg_i)` when the callback does not take its
arguments) for each callback parameter except the user pointer. -/
def callback_call_args (takes : Bool) (n : Nat) : String :=
  String.intercalate ", " ((List.range n).map (fun i =>
    (if takes then "isl::manage" else "isl::manage_copy")
      ++ "(arg_" ++ toString i ++ ")"))

/-- cpp.cc `cpp_generator::print_callback_local`, lines 1598-1643. -/
def print_callback_local (g : Gen) (p : Param) : Option String :=
  match p.ty with
  | .callback takes cargs ret =>
      (generate_callback_type g.noexceptions p.ty).map (fun cpp_args =>
        let c_args := generate_callback_args_c cargs
        let rettype := getAsString ret
        let num_params := cargs.length
        let last_idx := toString (num_params - 1)
        let call := "(*data->func)(" ++ callback_call_args takes (num_params - 1) ++ ")"
        "  struct " ++ p.name ++ "_data \x7b\n"
          ++ "    const " ++ cpp_args ++ " *func;\n"
          ++ (if !g.noexceptions then "    std::exception_ptr eptr;\n" else "")
          ++ "  \x7d " ++ p.name ++ "_data = \x7b &" ++ p.name ++ " \x7d;\n"
          ++ "  auto " ++ p.name ++ "_lambda = [](" ++ c_args ++ ") -> " ++ rettype ++ " \x7b\n"
          ++ "    auto *data = static_cast<struct " ++ p.name ++ "_data *>(arg_"
          ++ last_idx ++ ");\n"
          ++ print_wrapped_call g call ret
          ++ "  \x7d;\n")
  | _ => none

/-- cpp.cc `cpp_generator::print_method_param_use`, lines 921-963. -/
def print_method_param_use (p : Param) (load_from_this_ptr : Bool) : String :=
  if extensions && isEnumeralType p.ty then
    "static_cast<" ++ getAsString p.ty ++ ">(" ++ p.name ++ ")"
  else if isIntegerType p.ty then p.name
  else if is_string p.ty then p.name ++ ".c_str()"
  else if is_callback p.ty then p.name ++ "_lambda, &" ++ p.name ++ "_data"
  else
    (if !load_from_this_ptr && !is_callback p.ty then p.name ++ "." else "")
      ++ (if p.keep then "get()"
          else if load_from_this_ptr then "copy()" else "release()")

/-- The parameter loop of `cpp_generator::print_method_header`, lines
1363-1380: the bound shrinks by one at a callback parameter (hiding
the trailing user pointer) and the comma test uses the updated
bound.  The loop runs at most `n - i` times, so the structural fuel
(first `Nat` argument, instantiated with the parameter count at the
call site) never runs out before `i` reaches `n`. -/
def header_params_go (g : Gen) (params : List Param) : Nat → Nat → Nat → Option String
  | 0, _, _ => some ""
  | fuel + 1, i, n =>
      if i < n then do
        let p := params.getD i default
        let cpptype ← type2cppQ g.noexceptions p.ty
        let n2 := if is_callback p.ty then n - 1 else n
        let rest ← header_params_go g params fuel (i + 1) n2
        some ((if p.keep || is_string p.ty || is_callback p.ty then
                "const " ++ cpptype ++ " &" ++ p.name
              else cpptype ++ " " ++ p.name)
          ++ (if i != n2 - 1 then ", " else "") ++ rest)
      else some ""

/-- The declaration part printed by lines 1333-1347 of
`print_method_header`: indentation, `static`, `inline` and the
implicit/explicit marker of a constructor. -/
def header_decl_pre (g : Gen) (clazz : IslClass) (m : FunctionDecl)
    (is_declaration : Bool) (kind : FunctionKind) : Option String :=
  if is_declaration then
    if kind = FunctionKind.constructor then
      (is_implicit_conversion g clazz m).map (fun b =>
        "  " ++ "inline " ++ (if b then "/* implicit */ " else "explicit "))
    else some ("  " ++ (if kind = FunctionKind.static then "static " else "") ++ "inline ")
  else some ""

/-- cpp.cc `cpp_generator::print_method_header`, lines 1319-1390.
The `fullname` argument is taken (and ignored) exactly as in the
source, which prints `clazz.method_name(method)` instead. -/
def print_method_header (g : Gen) (clazz : IslClass) (m : FunctionDecl)
    (fullname : String) (is_declaration : Bool) (kind : FunctionKind) : Option String :=
  match type2cppQ g.noexceptions m.retTy,
        header_decl_pre g clazz m is_declaration kind,
        header_params_go g m.params m.params.length
          (if kind = FunctionKind.member then 1 else 0) m.params.length with
  | some rt, some pre, some ps =>
      some (pre
        ++ (if kind != FunctionKind.constructor then (super2sub clazz rt).2 ++ " " else "")
        ++ (if !is_declaration then type2cppC clazz ++ "::" else "")
        ++ (if kind != FunctionKind.constructor then rename_method m.cppName
            else type2cppC clazz)
        ++ "(" ++ ps ++ ")"
        ++ (if kind = FunctionKind.member then " const" else "")
        ++ (if is_declaration then ";" else "")
        ++ "\n")
  | _, _, _ => none

/-- The callback scan of `cpp_generator::print_method_impl`, lines
1222-1229: print the local wrapper for each callback parameter while
shrinking the exposed parameter count by one per callback; also
report whether any callback was seen.  As in `header_params_go`, the
first `Nat` argument is structural fuel bounding the `n - i`
remaining iterations. -/
def scan_callbacks (g : Gen) (params : List Param) : Nat → Nat → Nat →
    Option (String × Nat × Bool)
  | 0, _, n => some ("", n, false)
  | fuel + 1, i, n =>
      if i < n then
        let p := params.getD i default
        if is_callback p.ty then do
          let loc ← print_callback_local g p
          let rest ← scan_callbacks g params fuel (i + 1) (n - 1)
          some (loc ++ rest.1, rest.2.1, true)
        else scan_callbacks g params fuel (i + 1) n
      else some ("", n, false)

/-- The argument loop of `cpp_generator::print_method_impl`, lines
1233-1244, over the (possibly reduced) parameter count `n`, with the
same structural fuel. -/
def method_args_go (kind : FunctionKind) (params : List Param) : Nat → Nat → Nat → String
  | 0, _, _ => ""
  | fuel + 1, n, i =>
      if i < n then
        print_method_param_use (params.getD i default)
            (i == 0 && kind == FunctionKind.member)
          ++ (if i != n - 1 then ", " else "")
          ++ method_args_go kind params fuel n (i + 1)
      else ""

/-- The return statement printed by lines 1248-1271 of
`cpp_generator::print_method_impl`.  `rettype` is the (possibly
superclass-substituted) rendered return type. -/
def ret_part (g : Gen) (m : FunctionDecl) (kind : FunctionKind)
    (returns_super : Bool) (rettype : String) (has_callback : Bool) : String :=
  if kind = FunctionKind.constructor then "  ptr = res;\n"
  else if is_isl_type m.retTy || (g.noexceptions && is_isl_bool m.retTy) then
    if returns_super then "  return manage(res).as<" ++ rettype ++ ">();\n"
    else "  return manage(res);\n"
  else if has_callback then "  return " ++ rettype ++ "(res);\n"
  else if is_string m.retTy then
    "  std::string tmp(res);\n" ++ (if m.gives then "  free(res);\n" else "")
      ++ "  return tmp;\n"
  else if is_isl_enum m.retTy then
    "  return static_cast<" ++ enum2cpp (getAsString m.retTy) ++ ">(res);\n"
  else "  return res;\n"

/-- cpp.cc `cpp_generator::print_method_impl`, lines 1206-1274. -/
def print_method_impl (g : Gen) (clazz : IslClass) (fullname : String)
    (m : FunctionDecl) (kind : FunctionKind) : Option String :=
  match type2cppQ g.noexceptions m.retTy,
        print_method_header g clazz m fullname false kind,
        scan_callbacks g m.params m.params.length 0 m.params.length with
  | some rt, some hdr, some scan =>
      some (hdr ++ "\x7b\n"
        ++ print_argument_validity_check g m kind
        ++ print_save_ctx g m kind
        ++ print_on_error_continue g m kind
        ++ scan.1
        ++ "  auto res = " ++ m.name ++ "("
        ++ method_args_go kind m.params m.params.length scan.2.1 0 ++ ");\n"
        ++ print_exceptional_execution_check g m kind
        ++ ret_part g m kind (super2sub clazz rt).1 (super2sub clazz rt).2 scan.2.2
        ++ "\x7d\n")
  | _, _, _ => none

/-- cpp.cc `cpp_generator::print_subclass_type`, lines 161-177. -/
def print_subclass_type (g : Gen) (clazz : IslClass) : String :=
  if !clazz.is_type_subclass then ""
  else
    "  friend " ++ isl_bool2cpp g.noexceptions ++ " " ++ type2cppStr clazz.name
      ++ "::isa<" ++ type2cppC clazz ++ ">();\n"
      ++ "  friend " ++ type2cppC clazz ++ " " ++ type2cppStr clazz.name
      ++ "::as<" ++ type2cppC clazz ++ ">();\n"
      ++ "  static const auto type = " ++ clazz.subclass_name ++ ";\n"

/-- cpp.cc `cpp_generator::print_class_factory_decl`, lines 262-278. -/
def print_class_factory_decl (clazz : IslClass) (pre : String) : String :=
  if clazz.is_type_subclass then ""
  else
    pre ++ "inline isl::" ++ type2cppC clazz ++ " manage(__isl_take "
      ++ clazz.name ++ " *ptr);\n"
      ++ pre ++ "inline isl::" ++ type2cppC clazz ++ " manage_copy(__isl_keep "
      ++ clazz.name ++ " *ptr);\n"

/-- cpp.cc `cpp_generator::print_protected_constructors_decl`, lines
293-302. -/
def print_protected_constructors_decl (clazz : IslClass) : String :=
  "  inline explicit " ++ type2cppC clazz ++ "(__isl_take " ++ clazz.name ++ " *ptr);\n"

/-- cpp.cc `cpp_generator::print_public_constructors_decl`, lines
316-325. -/
def print_public_constructors_decl (clazz : IslClass) : String :=
  "  inline /* implicit */ " ++ type2cppC clazz ++ "();\n"
    ++ "  inline /* implicit */ " ++ type2cppC clazz ++ "(const isl::"
    ++ type2cppC clazz ++ " &obj);\n"

/-- cpp.cc `cpp_generator::print_constructors_decl`, lines 339-352. -/
def print_constructors_decl (g : Gen) (clazz : IslClass) : Option String :=
  (clazz.constructors.mapM (fun cons =>
    print_method_header g clazz cons cons.name true FunctionKind.constructor)).map strJoin

/-- cpp.cc `cpp_generator::print_copy_assignment_decl`, lines 362-370. -/
def print_copy_assignment_decl (clazz : IslClass) : String :=
  "  inline isl::" ++ type2cppC clazz ++ " &operator=(isl::" ++ type2cppC clazz
    ++ " obj);\n"

/-- cpp.cc `cpp_generator::print_destructor_decl`, lines 376-385. -/
def print_destructor_decl (clazz : IslClass) : String :=
  if clazz.is_type_subclass then ""
  else "  inline ~" ++ type2cppC clazz ++ "();\n"

/-- cpp.cc `cpp_generator::print_ptr_decl`, lines 426-439. -/
def print_ptr_decl (clazz : IslClass) : String :=
  if clazz.is_type_subclass then ""
  else
    "  inline __isl_give " ++ clazz.name ++ " *copy() const &;\n"
      ++ "  inline __isl_give " ++ clazz.name ++ " *copy() && = delete;\n"
      ++ "  inline __isl_keep " ++ clazz.name ++ " *get() const;\n"
      ++ "  inline __isl_give " ++ clazz.name ++ " *release();\n"
      ++ "  inline bool is_null() const;\n"
      ++ "  inline explicit operator bool() const;\n"

/-- cpp.cc `cpp_generator::print_downcast_decl`, lines 448-456. -/
def print_downcast_decl (g : Gen) (clazz : IslClass) : String :=
  match clazz.fn_type with
  | none => ""
  | some _ =>
      "  template <class T> inline " ++ isl_bool2cpp g.noexceptions ++ " isa();\n"
        ++ "  template <class T> inline T as();\n"

/-- cpp.cc `cpp_generator::print_get_ctx_decl`, lines 460-463. -/
def print_get_ctx_decl : String := "  inline isl::ctx get_ctx() const;\n"

/-- cpp.cc `cpp_generator::print_str_decl`, lines 465-471. -/
def print_str_decl (clazz : IslClass) : String :=
  match clazz.fn_to_str with
  | none => ""
  | some _ => "  inline std::string to_str() const;\n"

/-- cpp.cc `cpp_generator::print_method_group_decl`, lines 490-499. -/
def print_method_group_decl (g : Gen) (clazz : IslClass) (fullname : String)
    (methods : List FunctionDecl) : Option String :=
  (methods.mapM (fun m =>
    print_method_header g clazz m fullname true (get_method_kind clazz m))).map strJoin

/-- cpp.cc `cpp_generator::print_methods_decl`, lines 475-481. -/
def print_methods_decl (g : Gen) (clazz : IslClass) : Option String :=
  (clazz.methods.mapM (fun grp => print_method_group_decl g clazz grp.1 grp.2)).map strJoin

/-- cpp.cc `cpp_generator::print_class`, lines 192-230. -/
def print_class (g : Gen) (clazz : IslClass) : Option String := do
  let ctors ← print_constructors_decl g clazz
  let methods ← print_methods_decl g clazz
  some ("// declarations for isl::" ++ type2cppC clazz ++ "\n"
    ++ print_class_factory_decl clazz ""
    ++ "\n"
    ++ "class " ++ type2cppC clazz ++ " "
    ++ (if clazz.is_type_subclass then ": public " ++ type2cppStr clazz.name ++ " " else "")
    ++ "\x7b\n"
    ++ print_subclass_type g clazz
    ++ print_class_factory_decl clazz "  friend "
    ++ "\n"
    ++ "protected:\n"
    ++ (if !clazz.is_type_subclass then "  " ++ clazz.name ++ " *ptr = nullptr;\n\n" else "")
    ++ print_protected_constructors_decl clazz
    ++ "\n"
    ++ "public:\n"
    ++ print_public_constructors_decl clazz
    ++ ctors
    ++ print_copy_assignment_decl clazz
    ++ print_destructor_decl clazz
    ++ print_ptr_decl clazz
    ++ print_downcast_decl g clazz
    ++ print_get_ctx_decl
    ++ print_str_decl clazz
    ++ "\n"
    ++ methods
    ++ "  typedef " ++ clazz.name ++ "* isl_ptr_t;\n"
    ++ "\x7d;\n")

/-- cpp.cc `cpp_generator::print_class_forward_decl`, lines 234-241. -/
def print_class_forward_decl (clazz : IslClass) : String :=
  "class " ++ type2cppC clazz ++ ";\n"

/-- cpp.cc `cpp_generator::print_class_factory_impl`, lines 576-609. -/
def print_class_factory_impl (g : Gen) (clazz : IslClass) : String :=
  if clazz.is_type_subclass then ""
  else
    "isl::" ++ type2cppC clazz ++ " manage(__isl_take " ++ clazz.name ++ " *ptr) \x7b\n"
      ++ (if !g.noexceptions then "  if (!ptr)\n" ++ print_throw_NULL_input else "")
      ++ "  return " ++ type2cppC clazz ++ "(ptr);\n"
      ++ "\x7d\n"
      ++ "isl::" ++ type2cppC clazz ++ " manage_copy(__isl_keep " ++ clazz.name
      ++ " *ptr) \x7b\n"
      ++ (if !g.noexceptions then
            "  if (!ptr)\n" ++ print_throw_NULL_input
              ++ "  auto ctx = " ++ clazz.name ++ "_get_ctx(ptr);\n"
          else "")
      ++ "  ptr = " ++ clazz.name ++ "_copy(ptr);\n"
      ++ (if !g.noexceptions then
            "  if (!ptr)\n    throw exception::create_from_last_error(ctx);\n"
          else "")
      ++ "  return " ++ type2cppC clazz ++ "(ptr);\n"
      ++ "\x7d\n"

/-- cpp.cc `cpp_generator::print_protected_constructors_impl`, lines
616-630. -/
def print_protected_constructors_impl (clazz : IslClass) : String :=
  type2cppC clazz ++ "::" ++ type2cppC clazz ++ "(__isl_take " ++ clazz.name
    ++ " *ptr)\n"
    ++ (if clazz.is_type_subclass then
          "    : " ++ type2cppStr clazz.name ++ "(ptr) \x7b\x7d\n"
        else "    : ptr(ptr) \x7b\x7d\n")

/-- cpp.cc `cpp_generator::print_public_constructors_impl`, lines
642-670. -/
def print_public_constructors_impl (g : Gen) (clazz : IslClass) : String :=
  type2cppC clazz ++ "::" ++ type2cppC clazz ++ "()\n"
    ++ (if clazz.is_type_subclass then
          "    : " ++ type2cppStr clazz.name ++ "() \x7b\x7d\n\n"
        else "    : ptr(nullptr) \x7b\x7d\n\n")
    ++ type2cppC clazz ++ "::" ++ type2cppC clazz ++ "(const isl::" ++ type2cppC clazz
    ++ " &obj)\n"
    ++ (if clazz.is_type_subclass then
          "    : " ++ type2cppStr clazz.name ++ "(obj)\n"
        else "    : ptr(obj.copy())\n")
    ++ "\x7b\n"
    ++ (if !g.noexceptions && !clazz.is_type_subclass then
          "  if (obj.ptr && !ptr)\n    throw exception::create_from_last_error("
            ++ clazz.name ++ "_get_ctx(obj.ptr));\n"
        else "")
    ++ "\x7d\n"

/-- cpp.cc `cpp_generator::print_constructors_impl`, lines 674-687. -/
def print_constructors_impl (g : Gen) (clazz : IslClass) : Option String :=
  (clazz.constructors.mapM (fun cons =>
    print_method_impl g clazz cons.name cons FunctionKind.constructor)).map strJoin

/-- cpp.cc `cpp_generator::print_copy_assignment_impl`, lines 691-703. -/
def print_copy_assignment_impl (clazz : IslClass) : String :=
  type2cppC clazz ++ " &" ++ type2cppC clazz ++ "::operator=(isl::" ++ type2cppC clazz
    ++ " obj) \x7b\n"
    ++ "  std::swap(this->ptr, obj.ptr);\n"
    ++ "  return *this;\n"
    ++ "\x7d\n"

/-- cpp.cc `cpp_generator::print_destructor_impl`, lines 709-723. -/
def print_destructor_impl (clazz : IslClass) : String :=
  if clazz.is_type_subclass then ""
  else
    type2cppC clazz ++ "::~" ++ type2cppC clazz ++ "() \x7b\n"
      ++ "  if (ptr)\n"
      ++ "    " ++ clazz.name ++ "_free(ptr);\n"
      ++ "\x7d\n"

/-- cpp.cc `cpp_generator::print_ptr_impl`, lines 729-756. -/
def print_ptr_impl (clazz : IslClass) : String :=
  if clazz.is_type_subclass then ""
  else
    "__isl_give " ++ clazz.name ++ " *" ++ type2cppC clazz ++ "::copy() const & \x7b\n"
      ++ "  return " ++ clazz.name ++ "_copy(ptr);\n"
      ++ "\x7d\n\n"
      ++ "__isl_keep " ++ clazz.name ++ " *" ++ type2cppC clazz ++ "::get() const \x7b\n"
      ++ "  return ptr;\n"
      ++ "\x7d\n\n"
      ++ "__isl_give " ++ clazz.name ++ " *" ++ type2cppC clazz ++ "::release() \x7b\n"
      ++ "  " ++ clazz.name ++ " *tmp = ptr;\n"
      ++ "  ptr = nullptr;\n"
      ++ "  return tmp;\n"
      ++ "\x7d\n\n"
      ++ "bool " ++ type2cppC clazz ++ "::is_null() const \x7b\n"
      ++ "  return ptr == nullptr;\n"
      ++ "\x7d\n"
      ++ type2cppC clazz ++ "::operator bool() const\n"
      ++ "\x7b\n"
      ++ "  return !is_null();\n"
      ++ "\x7d\n"

/-- cpp.cc `cpp_generator::print_downcast_impl`, lines 772-803; the
boolean reports whether anything was printed. -/
def print_downcast_impl (g : Gen) (clazz : IslClass) : Bool × String :=
  match clazz.fn_type with
  | none => (false, "")
  | some fn =>
      (true,
        "template <class T>\n"
          ++ isl_bool2cpp g.noexceptions ++ " " ++ type2cppC clazz ++ "::isa()\n"
          ++ "\x7b\n"
          ++ "  if (is_null())\n"
          ++ (if g.noexceptions then "    return isl::boolean();\n"
              else print_throw_NULL_input)
          ++ "  return " ++ fn.name ++ "(get()) == T::type;\n"
          ++ "\x7d\n"
          ++ "template <class T>\n"
          ++ "T " ++ type2cppC clazz ++ "::as()\n"
          ++ "\x7b\n"
          ++ (if g.noexceptions then "  if (is_null())\n    T();\n" else "")
          ++ "  return isa<T>() ? T(copy()) : T();\n"
          ++ "\x7d\n")

/-- cpp.cc `cpp_generator::print_get_ctx_impl`, lines 807-816. -/
def print_get_ctx_impl (clazz : IslClass) : String :=
  "isl::ctx " ++ type2cppC clazz ++ "::get_ctx() const \x7b\n"
    ++ "  return isl::ctx(" ++ clazz.name ++ "_get_ctx(ptr));\n"
    ++ "\x7d\n"

/-- cpp.cc `cpp_generator::print_str_impl`, lines 818-835. -/
def print_str_impl (clazz : IslClass) : String :=
  match clazz.fn_to_str with
  | none => ""
  | some _ =>
      "std::string " ++ type2cppC clazz ++ "::to_str() const \x7b\n"
        ++ "  char *Tmp = " ++ clazz.name ++ "_to_str(get());\n"
        ++ "  if (!Tmp)\n"
        ++ "    return \"\";\n"
        ++ "  std::string S(Tmp);\n"
        ++ "  free(Tmp);\n"
        ++ "  return S;\n"
        ++ "\x7d\n"
        ++ "\n"

/-- cpp.cc `cpp_generator::print_operators_impl`, lines 837-859. -/
def print_operators_impl (g : Gen) (clazz : IslClass) : Option String := do
  let eqPart ←
    match clazz.fn_is_equal with
    | none => some ""
    | some f =>
        (type2cppQ g.noexceptions f.retTy).map (fun rt =>
          "inline " ++ rt ++ " operator==(const " ++ type2cppC clazz ++ "& C1, const "
            ++ type2cppC clazz ++ "& C2) \x7b\n"
            ++ "  return C1.is_equal(C2);\n"
            ++ "\x7d\n"
            ++ "\n")
  some ((if clazz.fn_to_str.isSome then
          "inline std::ostream& operator<<(std::ostream& os, const " ++ type2cppC clazz
            ++ "& C) \x7b\n"
            ++ "  os << C.to_str();\n"
            ++ "  return os;\n"
            ++ "\x7d\n"
            ++ "\n"
        else "")
    ++ eqPart)

/-- cpp.cc `cpp_generator::print_method_group_impl`, lines 886-901;
the members of a group are separated by blank lines. -/
def print_method_group_impl (g : Gen) (clazz : IslClass) (fullname : String)
    (methods : List FunctionDecl) : Option String :=
  (methods.mapM (fun m =>
    print_method_impl g clazz fullname m (get_method_kind clazz m))).map
    (String.intercalate "\n")

/-- cpp.cc `cpp_generator::print_methods_impl`, lines 863-875; groups
are separated by blank lines. -/
def print_methods_impl (g : Gen) (clazz : IslClass) : Option String :=
  (clazz.methods.mapM (fun grp => print_method_group_impl g clazz grp.1 grp.2)).map
    (String.intercalate "\n")

/-- cpp.cc `cpp_generator::print_class_impl`, lines 517-549. -/
def print_class_impl (g : Gen) (clazz : IslClass) : Option String := do
  let ctors ← print_constructors_impl g clazz
  let ops ← print_operators_impl g clazz
  let methods ← print_methods_impl g clazz
  some ("// implementations for isl::" ++ type2cppC clazz ++ "\n"
    ++ print_class_factory_impl g clazz ++ "\n"
    ++ print_public_constructors_impl g clazz ++ "\n"
    ++ print_protected_constructors_impl clazz ++ "\n"
    ++ ctors ++ "\n"
    ++ print_copy_assignment_impl clazz ++ "\n"
    ++ print_destructor_impl clazz ++ "\n"
    ++ print_ptr_impl clazz
    ++ (if extensions then "\n" ++ ops ++ "\n" ++ print_str_impl clazz else "")
    ++ "\n"
    ++ (print_downcast_impl g clazz).2
    ++ (if (print_downcast_impl g clazz).1 then "\n" else "")
    ++ print_get_ctx_impl clazz ++ "\n"
    ++ methods)

/-- cpp.cc `cpp_generator::print_forward_declarations`, lines 110-118.
The classes map is passed as its list of entries in key order. -/
def print_forward_declarations (classes : List IslClass) : String :=
  "// forward declarations\n" ++ strJoin (classes.map print_class_forward_decl)

/-- cpp.cc `cpp_generator::print_declarations`, lines 122-135; the
classes are separated by blank lines. -/
def print_declarations (g : Gen) (classes : List IslClass) : Option String :=
  (classes.mapM (print_class g)).map (String.intercalate "\n")

/-- cpp.cc `cpp_generator::print_implementations`, lines 139-152. -/
def print_implementations (g : Gen) (classes : List IslClass) : Option String :=
  (classes.mapM (print_class_impl g)).map (String.intercalate "\n")

/-- cpp.cc `cpp_generator::generate`, lines 88-106. -/
def generate (g : Gen) (classes : List IslClass) : Option String := do
  let decls ← print_declarations g classes
  let impls ← print_implementations g classes
  some ("\n"
    ++ "namespace isl \x7b\n\n"
    ++ (if g.noexceptions then "inline namespace noexceptions \x7b\n\n" else "")
    ++ print_forward_declarations classes
    ++ "\n"
    ++ decls
    ++ "\n"
    ++ impls
    ++ (if g.noexceptions then "\x7d // namespace noexceptions\n" else "")
    ++ "\x7d // namespace isl\n")

/-! ### A stateful view of the subclass walk

`cpp_generator::is_subclass` reads the member `classes` map through
`std::map::operator[]` (`classes[type_str]` on line 1743 and
`classes[*ci]` on lines 1747 and 1759), and `operator[]` inserts a
default-constructed `isl_class` when the key is absent.  The
definitions below make that state explicit for the frame-effect
claim: the map is an association list ordered by key, and every
lookup is the inserting `operator[]`. -/

/-- The `classes` member, `map<string, isl_class>`, as an ordered
association list. -/
abbrev ClassMap := List (String × IslClass)

/-- A default-constructed `isl_class`: empty strings, null record
declaration, null function pointers, empty sets. -/
def defaultIslClass : IslClass := ⟨"", "", none, none, none, none, [], []⟩

/-- Pure lookup in the classes map. -/
def mapFind (m : ClassMap) (k : String) : Option IslClass :=
  (m.find? (fun e => e.1 = k)).map (fun e => e.2)

/-- Insertion of a default entry for a new key.  `std::map` keeps its
entries ordered by key; since no claim depends on the position of an
entry (lookups go through the key), the new entry is appended. -/
def mapInsertDefault (m : ClassMap) (k : String) : ClassMap :=
  m ++ [(k, defaultIslClass)]

/-- `std::map::operator[]`: return the mapped value, inserting a
default-constructed one first when the key is absent. -/
def mapIndex (m : ClassMap) (k : String) : IslClass × ClassMap :=
  match mapFind m k with
  | some c => (c, m)
  | none => (defaultIslClass, mapInsertDefault m k)

/-- Materialize `&classes[*ci]` for every superclass name pushed onto
the worklist (lines 1745-1746 and 1758-1759). -/
def pushAll (m : ClassMap) (ks : List String) : ClassMap :=
  ks.foldl (fun acc k => (mapIndex acc k).2) m

/-- The worklist loop of `is_subclass` with the classes map threaded
through.  `fsup` is `generator::find_superclasses` applied to a
record declaration (`none` is a null record, as in a
default-constructed entry, for which the model returns no
superclasses).  The target entry is identified by its map key. -/
def is_subclassS_go (fsup : Option String → List String) (tgt : String) :
    Nat → List String → ClassMap → Option (Bool × ClassMap)
  | _, [], m => some (false, m)
  | 0, _ :: _, _ => none
  | fuel + 1, c :: rest, m =>
      if c = tgt then some (true, m)
      else
        let cl := (mapFind m c).getD defaultIslClass
        let sups := fsup cl.type
        is_subclassS_go fsup tgt fuel (sups ++ rest) (pushAll m sups)

/-- cpp.cc `cpp_generator::is_subclass`, lines 1735-1763, with the
`classes` member made explicit: the result of the walk together with
the classes map after it. -/
def is_subclassS (fsup : Option String → List String) (fuel : Nat)
    (sub tgt : String) (m : ClassMap) : Option (Bool × ClassMap) :=
  let r := mapIndex m sub
  let sups := fsup r.1.type
  is_subclassS_go fsup tgt fuel sups (pushAll r.2 sups)

/-! ### Helper lemmas -/

/-- One step of the superclass relation: `b` is among the declared
superclass names of the type named `a`. -/
def superEdge (g : Gen) (a b : String) : Prop := b ∈ g.supers a

theorem is_subclass_go_sound (g : Gen) (tgt : String) :
    ∀ fuel wl, is_subclass_go g tgt fuel wl = some true →
      ∃ x ∈ wl, Relation.ReflTransGen (superEdge g) x tgt := by
  intro fuel
  induction fuel with
  | zero =>
      intro wl h
      cases wl with
      | nil => simp [is_subclass_go] at h
      | cons c rest => simp [is_subclass_go] at h
  | succ f ih =>
      intro wl h
      cases wl with
      | nil => simp [is_subclass_go] at h
      | cons c rest =>
          by_cases hc : c = tgt
          · exact ⟨c, List.mem_cons_self c rest, by rw [hc]⟩
          · rw [is_subclass_go, if_neg hc] at h
            obtain ⟨x, hx, hr⟩ := ih _ h
            rcases List.mem_append.mp hx with hx1 | hx2
            · exact ⟨c, List.mem_cons_self c rest,
                Relation.ReflTransGen.head (show superEdge g c x from hx1) hr⟩
            · exact ⟨x, List.mem_cons_of_mem c hx2, hr⟩

theorem is_subclass_go_complete (g : Gen) (tgt : String) :
    ∀ fuel wl, is_subclass_go g tgt fuel wl = some false →
      ∀ x ∈ wl, ¬ Relation.ReflTransGen (superEdge g) x tgt := by
  intro fuel
  induction fuel with
  | zero =>
      intro wl h x hx
      cases wl with
      | nil => simp at hx
      | cons c rest => simp [is_subclass_go] at h
  | succ f ih =>
      intro wl h x hx
      cases wl with
      | nil => simp at hx
      | cons c rest =>
          by_cases hc : c = tgt
          · rw [is_subclass_go, if_pos hc] at h
            simp at h
          · rw [is_subclass_go, if_neg hc] at h
            rcases List.mem_cons.mp hx with rfl | hx2
            · intro hr
              rcases Relation.ReflTransGen.cases_head hr with rfl | ⟨y, hy, hr2⟩
              · exact hc rfl
              · exact ih _ h y (List.mem_append.mpr (Or.inl hy)) hr2
            · exact ih _ h x (List.mem_append.mpr (Or.inr hx2))

/-- Splitting a concatenation of emitted fragments at a member of the
underlying list. -/
theorem strJoin_filterMap_split {α : Type _} (f : α → Option String) :
    ∀ (l : List α) (a : α), a ∈ l → ∀ s, f a = some s →
      ∃ x y, strJoin (l.filterMap f) = x ++ s ++ y := by
  intro l
  induction l with
  | nil => simp
  | cons hd tl ih =>
      intro a ha s hs
      rcases List.mem_cons.mp ha with rfl | hmem
      · rw [List.filterMap_cons, hs]
        exact ⟨"", strJoin (tl.filterMap f), by simp [strJoin, String.empty_append]⟩
      · obtain ⟨x, y, hxy⟩ := ih a hmem s hs
        cases hf : f hd with
        | none => rw [List.filterMap_cons, hf]; exact ⟨x, y, hxy⟩
        | some b =>
            rw [List.filterMap_cons, hf]
            exact ⟨b ++ x, y, by simp [strJoin, hxy, String.append_assoc]⟩

/-- Above parameter position zero, the validity-check loop of a
member method collects exactly the non-context isl object
parameters. -/
theorem validity_conds_pos (ps : List Param) (i : Nat) :
    validity_conds FunctionKind.member (i + 1) ps =
      (ps.filter (fun q => is_isl_type q.ty && !is_isl_ctx q.ty)).map
        (fun q => q.name ++ ".is_null()") := by
  induction ps generalizing i with
  | nil => rfl
  | cons p ps ih =>
      rw [validity_conds, List.filter_cons]
      cases ht : is_isl_type p.ty <;> cases hc : is_isl_ctx p.ty <;>
        simp [ht, hc, ih (i + 1)]

/-- The canonical decomposition of an emitted method body
(`print_method_impl`): header, opening brace, argument validity
check, context save, error-mode scope, callback locals, the call to
the underlying isl function, the post-call exception check and the
return statement. -/
theorem print_method_impl_decomp (g : Gen) (clazz : IslClass) (fullname : String)
    (m : FunctionDecl) (kind : FunctionKind) (body : String)
    (hbody : print_method_impl g clazz fullname m kind = some body) :
    ∃ rt hdr scan, type2cppQ g.noexceptions m.retTy = some rt
      ∧ print_method_header g clazz m fullname false kind = some hdr
      ∧ scan_callbacks g m.params m.params.length 0 m.params.length = some scan
      ∧ body = hdr ++ "\x7b\n"
          ++ print_argument_validity_check g m kind
          ++ print_save_ctx g m kind
          ++ print_on_error_continue g m kind
          ++ scan.1
          ++ "  auto res = " ++ m.name ++ "("
          ++ method_args_go kind m.params m.params.length scan.2.1 0 ++ ");\n"
          ++ print_exceptional_execution_check g m kind
          ++ ret_part g m kind (super2sub clazz rt).1 (super2sub clazz rt).2 scan.2.2
          ++ "\x7d\n" := by
  unfold print_method_impl at hbody
  split at hbody
  case _ rt hdr scan h1 h2 h3 =>
    exact ⟨rt, hdr, scan, h1, h2, h3, (Option.some.inj hbody).symm⟩
  case _ =>
    exact absurd hbody (by simp)

/-! ### Claim theorems -/

/-- C5: the type mapper renders the tri-state boolean foreign result
type `isl_bool` as plain `bool` in exception mode and as the
tri-state `isl::boolean` in status-code mode, and renders the
status/unit foreign result type `isl_stat` as `void` in exception
mode and as `isl::stat` in status-code mode. -/
theorem C5_bool_stat_mapping :
    type2cppQ false CType.islBool = some "bool"
    ∧ type2cppQ true CType.islBool = some "isl::boolean"
    ∧ type2cppQ false CType.islStat = some "void"
    ∧ type2cppQ true CType.islStat = some "isl::stat"
    ∧ isl_bool2cpp false = "bool"
    ∧ isl_bool2cpp true = "isl::boolean" :=
  ⟨rfl, rfl, rfl, rfl, rfl, rfl⟩

/-- The recognized categories of the type mapper, stated from the
spec's words (isl object type, `isl_bool`, `isl_stat`, enumeration,
context, integer, string, callback); the comparison side of the
refinement claim C7. -/
def spec_recognized_category (t : CType) : Bool :=
  is_isl_type t || is_isl_bool t || is_isl_stat t || isEnumeralType t || is_isl_ctx t
    || isIntegerType t || is_string t || is_callback t

/-- C7: requesting a type mapping for a foreign type outside the
recognized categories is fatal: the mapper aborts (modelled by
`none`, the image of `die`) and never produces a rendered type. -/
theorem C7_unrecognized_type_fatal (noexceptions : Bool) (t : CType)
    (h : spec_recognized_category t = false) :
    type2cppQ noexceptions t = none := by
  cases t <;>
    simp_all [spec_recognized_category, is_isl_type, is_isl_bool, is_isl_stat,
      isEnumeralType, is_isl_ctx, isIntegerType, is_string, is_callback, type2cppQ]

/-- Witness for C7 at the unrecognized type `void *`. -/
theorem C7_witness :
    spec_recognized_category CType.voidPtr = false
    ∧ type2cppQ false CType.voidPtr = none :=
  ⟨rfl, C7_unrecognized_type_fatal false CType.voidPtr rfl⟩

/-- C10: for a root class the emitted handle accessor declarations
contain `copy() const &` immediately followed by the deleted r-value
overload `copy() && = delete` (so a handle copy can only be requested
on an l-value and temporaries must use `release()`), while a type-tag
subclass gets no accessor declarations of its own. -/
theorem C10_copy_deleted_on_rvalues (clazz : IslClass) :
    print_ptr_decl clazz =
      (if clazz.is_type_subclass then ""
       else
         "  inline __isl_give " ++ clazz.name ++ " *copy() const &;\n"
           ++ "  inline __isl_give " ++ clazz.name ++ " *copy() && = delete;\n"
           ++ "  inline __isl_keep " ++ clazz.name ++ " *get() const;\n"
           ++ "  inline __isl_give " ++ clazz.name ++ " *release();\n"
           ++ "  inline bool is_null() const;\n"
           ++ "  inline explicit operator bool() const;\n")
    ∧ (clazz.is_type_subclass = true → print_ptr_impl clazz = "") := by
  constructor
  · rfl
  · intro h
    simp [print_ptr_impl, h]

/-- C8: the generated output is one text stream made of the three
regions (forward declarations, class declarations, class
implementations) in that order, wrapped in `namespace isl`, with an
inline sub-namespace `noexceptions` opened before and closed after
all three regions exactly when status-code mode is selected. -/
theorem C8_output_structure (g : Gen) (classes : List IslClass) (d i : String)
    (hd : print_declarations g classes = some d)
    (hi : print_implementations g classes = some i) :
    generate g classes =
      some ("\n"
        ++ "namespace isl \x7b\n\n"
        ++ (if g.noexceptions then "inline namespace noexceptions \x7b\n\n" else "")
        ++ print_forward_declarations classes
        ++ "\n"
        ++ d
        ++ "\n"
        ++ i
        ++ (if g.noexceptions then "\x7d // namespace noexceptions\n" else "")
        ++ "\x7d // namespace isl\n") := by
  simp [generate, hd, hi]

/-- C1: in exception mode every generated member-method body opens
with a check that the receiver handle (`!ptr`) and every argument of
isl object type other than the context are non-null, throwing the
`isl_error_invalid` / `"NULL input"` exception, and this check
precedes the call to the underlying isl function; in status-code mode
no such check is emitted at all, so the underlying function is
invoked unconditionally. -/
theorem C1_member_method_null_checks (g : Gen) (clazz : IslClass) (fullname : String)
    (m : FunctionDecl) (p0 : Param) (ps : List Param) (body : String)
    (hp : m.params = p0 :: ps)
    (hbody : print_method_impl g clazz fullname m FunctionKind.member = some body) :
    (g.noexceptions = true → print_argument_validity_check g m FunctionKind.member = "")
    ∧ (g.noexceptions = false →
        print_argument_validity_check g m FunctionKind.member =
          "  if (" ++ String.intercalate " || "
              ("!ptr" :: (ps.filter (fun q => is_isl_type q.ty && !is_isl_ctx q.ty)).map
                  (fun q => q.name ++ ".is_null()")) ++ ")\n"
            ++ print_throw_NULL_input)
    ∧ print_throw_NULL_input =
        "    throw isl::exception::create(isl_error_invalid,\n        \"NULL input\", __FILE__, __LINE__);\n"
    ∧ ∃ hdr mid args rest,
        body = hdr ++ "\x7b\n" ++ print_argument_validity_check g m FunctionKind.member
          ++ mid ++ "  auto res = " ++ m.name ++ "(" ++ args ++ ");\n" ++ rest := by
  refine ⟨?_, ?_, rfl, ?_⟩
  · intro hne
    simp [print_argument_validity_check, hne]
  · intro hne
    have h0 : validity_conds FunctionKind.member 0 m.params =
        "!ptr" :: (ps.filter (fun q => is_isl_type q.ty && !is_isl_ctx q.ty)).map
          (fun q => q.name ++ ".is_null()") := by
      rw [hp, validity_conds]
      simp [validity_conds_pos ps 0]
    simp [print_argument_validity_check, hne, h0]
  · obtain ⟨rt, hdr, scan, _h1, _h2, _h3, hb⟩ :=
      print_method_impl_decomp g clazz fullname m FunctionKind.member body hbody
    refine ⟨hdr,
      print_save_ctx g m FunctionKind.member
        ++ print_on_error_continue g m FunctionKind.member ++ scan.1,
      method_args_go FunctionKind.member m.params m.params.length scan.2.1 0,
      print_exceptional_execution_check g m FunctionKind.member
        ++ ret_part g m FunctionKind.member (super2sub clazz rt).1 (super2sub clazz rt).2
            scan.2.2
        ++ "\x7d\n", ?_⟩
    rw [hb]
    simp only [String.append_assoc]

/-- Witness for C1: a member method of `isl_set` with a kept receiver
parameter, in exception mode. -/
theorem C1_witness :
    (FunctionDecl.params
        ⟨"isl_set_foo", "foo", CType.islObj "isl_set", true,
          [⟨"obj", CType.islObj "isl_set", true⟩]⟩
      = ⟨"obj", CType.islObj "isl_set", true⟩ :: [])
    ∧ print_method_impl ⟨false, fun _ => [], 0⟩
        ⟨"isl_set", "isl_set", some "isl_set", none, none, none, [], []⟩ "foo"
        ⟨"isl_set_foo", "foo", CType.islObj "isl_set", true,
          [⟨"obj", CType.islObj "isl_set", true⟩]⟩ FunctionKind.member
      = some ("isl::set set::foo() const\n\x7b\n  if (!ptr)\n    throw isl::exception::create(isl_error_invalid,\n        \"NULL input\", __FILE__, __LINE__);\n  options_scoped_set_on_error saved_on_error(get_ctx(), ISL_ON_ERROR_CONTINUE);\n  auto res = isl_set_foo(get());\n  if (!res)\n    throw exception::create_from_last_error(get_ctx());\n  return manage(res);\n\x7d\n")
    ∧ ((Gen.noexceptions ⟨false, fun _ => [], 0⟩ = true →
          print_argument_validity_check ⟨false, fun _ => [], 0⟩
            ⟨"isl_set_foo", "foo", CType.islObj "isl_set", true,
              [⟨"obj", CType.islObj "isl_set", true⟩]⟩ FunctionKind.member = "")
      ∧ (Gen.noexceptions ⟨false, fun _ => [], 0⟩ = false →
          print_argument_validity_check ⟨false, fun _ => [], 0⟩
            ⟨"isl_set_foo", "foo", CType.islObj "isl_set", true,
              [⟨"obj", CType.islObj "isl_set", true⟩]⟩ FunctionKind.member =
            "  if (" ++ String.intercalate " || "
                ("!ptr" :: (([] : List Param).filter
                    (fun q => is_isl_type q.ty && !is_isl_ctx q.ty)).map
                    (fun q => q.name ++ ".is_null()")) ++ ")\n"
              ++ print_throw_NULL_input)
      ∧ print_throw_NULL_input =
          "    throw isl::exception::create(isl_error_invalid,\n        \"NULL input\", __FILE__, __LINE__);\n"
      ∧ ∃ hdr mid args rest,
          "isl::set set::foo() const\n\x7b\n  if (!ptr)\n    throw isl::exception::create(isl_error_invalid,\n        \"NULL input\", __FILE__, __LINE__);\n  options_scoped_set_on_error saved_on_error(get_ctx(), ISL_ON_ERROR_CONTINUE);\n  auto res = isl_set_foo(get());\n  if (!res)\n    throw exception::create_from_last_error(get_ctx());\n  return manage(res);\n\x7d\n"
            = hdr ++ "\x7b\n"
              ++ print_argument_validity_check ⟨false, fun _ => [], 0⟩
                  ⟨"isl_set_foo", "foo", CType.islObj "isl_set", true,
                    [⟨"obj", CType.islObj "isl_set", true⟩]⟩ FunctionKind.member
              ++ mid ++ "  auto res = "
              ++ FunctionDecl.name
                  ⟨"isl_set_foo", "foo", CType.islObj "isl_set", true,
                    [⟨"obj", CType.islObj "isl_set", true⟩]⟩
              ++ "(" ++ args ++ ");\n" ++ rest) :=
  ⟨rfl, by decide,
    C1_member_method_null_checks ⟨false, fun _ => [], 0⟩
      ⟨"isl_set", "isl_set", some "isl_set", none, none, none, [], []⟩ "foo"
      ⟨"isl_set_foo", "foo", CType.islObj "isl_set", true,
        [⟨"obj", CType.islObj "isl_set", true⟩]⟩
      ⟨"obj", CType.islObj "isl_set", true⟩ [] _ rfl (by decide)⟩

/-- C2: in exception mode the trampoline body wraps the closure
invocation in a `try`/`catch` that stores the raised exception in the
context record's `eptr` slot and returns the sentinel
(`isl_stat_error`, `isl_bool_error` or `NULL`, by the callback's
return type), and the generated method checks the `eptr` slot right
after the foreign call returns and rethrows; in status-code mode the
invocation is emitted without any guard and the post-call check
region is empty. -/
theorem C2_callback_exception_protocol (g : Gen) (clazz : IslClass) (fullname : String)
    (m : FunctionDecl) (kind : FunctionKind) (body call : String) (rt : CType) (p : Param)
    (hbody : print_method_impl g clazz fullname m kind = some body)
    (hp : p ∈ m.params) (hcb : is_callback p.ty = true) :
    (g.noexceptions = false →
      print_wrapped_call g call rt =
        "    try \x7b\n"
          ++ (if is_isl_stat rt then "      " ++ call ++ ";\n"
              else "      auto ret = " ++ call ++ ";\n")
          ++ (if is_isl_stat rt then "      return isl_stat_ok;\n"
              else if is_isl_bool rt then
                "      return ret ? isl_bool_true : isl_bool_false;\n"
              else "      return ret.release();\n")
          ++ "    \x7d catch (...) \x7b\n      data->eptr = std::current_exception();\n"
          ++ (if is_isl_stat rt then "      return isl_stat_error;\n"
              else if is_isl_bool rt then "      return isl_bool_error;\n"
              else "      return NULL;\n")
          ++ "    \x7d\n")
    ∧ (g.noexceptions = false →
      ∃ x y, print_exceptional_execution_check g m kind =
        x ++ ("  if (" ++ p.name ++ "_data.eptr)\n    std::rethrow_exception("
          ++ p.name ++ "_data.eptr);\n") ++ y)
    ∧ (∃ pre args rest,
        body = pre ++ "  auto res = " ++ m.name ++ "(" ++ args ++ ");\n"
          ++ print_exceptional_execution_check g m kind ++ rest)
    ∧ (g.noexceptions = true →
        print_wrapped_call g call rt =
          "    auto ret = " ++ call ++ ";\n"
            ++ (if is_isl_stat rt then "    return isl_stat(ret);\n"
                else "    return ret.release();\n")
          ∧ print_exceptional_execution_check g m kind = "") := by
  refine ⟨?_, ?_, ?_, ?_⟩
  · intro hne
    simp [print_wrapped_call, hne]
  · intro hne
    obtain ⟨x, y, hxy⟩ := strJoin_filterMap_split
      (fun q : Param => if is_callback q.ty then
        some ("  if (" ++ q.name ++ "_data.eptr)\n    std::rethrow_exception("
          ++ q.name ++ "_data.eptr);\n") else none)
      m.params p hp
      ("  if (" ++ p.name ++ "_data.eptr)\n    std::rethrow_exception("
        ++ p.name ++ "_data.eptr);\n")
      (by simp [hcb])
    refine ⟨x, y ++ post_call_res_check m kind, ?_⟩
    rw [print_exceptional_execution_check, if_neg (by simp [hne]), callback_rethrows, hxy]
    simp only [String.append_assoc]
  · obtain ⟨rt2, hdr, scan, _h1, _h2, _h3, hb⟩ :=
      print_method_impl_decomp g clazz fullname m kind body hbody
    refine ⟨hdr ++ "\x7b\n" ++ print_argument_validity_check g m kind
        ++ print_save_ctx g m kind ++ print_on_error_continue g m kind ++ scan.1,
      method_args_go kind m.params m.params.length scan.2.1 0,
      ret_part g m kind (super2sub clazz rt2).1 (super2sub clazz rt2).2 scan.2.2
        ++ "\x7d\n", ?_⟩
    rw [hb]
    simp only [String.append_assoc]
  · intro hne
    exact ⟨by simp [print_wrapped_call, print_wrapped_call_noexceptions, hne],
      by simp [print_exceptional_execution_check, hne]⟩

/-- Exception-mode generator state used by several witnesses. -/
def genE : Gen := ⟨false, fun _ => [], 0⟩

/-- The `isl_set` root class used by several witnesses. -/
def setClassW : IslClass := ⟨"isl_set", "isl_set", some "isl_set", none, none, none, [], []⟩

/-- A callback parameter (an `isl_stat` callback over `isl_set`). -/
def cbParamW : Param :=
  ⟨"fn", CType.callback true [CType.islObj "isl_set", CType.voidPtr] CType.islStat, false⟩

/-- An `isl_set_foreach`-style member method with a callback. -/
def foreachW : FunctionDecl :=
  ⟨"isl_set_foreach", "foreach", CType.islStat, false,
    [⟨"s", CType.islObj "isl_set", false⟩, cbParamW, ⟨"user", CType.voidPtr, false⟩]⟩

/-- The body generated for `foreachW` in exception mode. -/
def foreachBodyW : String :=
  "void set::foreach(const std::function<void(isl::set)> &fn) const\n\x7b\n  if (!ptr)\n    throw isl::exception::create(isl_error_invalid,\n        \"NULL input\", __FILE__, __LINE__);\n  options_scoped_set_on_error saved_on_error(get_ctx(), ISL_ON_ERROR_CONTINUE);\n  struct fn_data \x7b\n    const std::function<void(isl::set)> *func;\n    std::exception_ptr eptr;\n  \x7d fn_data = \x7b &fn \x7d;\n  auto fn_lambda = [](isl_set *arg_0, void *arg_1) -> isl_stat \x7b\n    auto *data = static_cast<struct fn_data *>(arg_1);\n    try \x7b\n      (*data->func)(isl::manage(arg_0));\n      return isl_stat_ok;\n    \x7d catch (...) \x7b\n      data->eptr = std::current_exception();\n      return isl_stat_error;\n    \x7d\n  \x7d;\n  auto res = isl_set_foreach(copy(), fn_lambda, &fn_data);\n  if (fn_data.eptr)\n    std::rethrow_exception(fn_data.eptr);\n  if (res < 0)\n    throw exception::create_from_last_error(get_ctx());\n  return void(res);\n\x7d\n"

/-- Witness for C2: the callback method `foreachW` in exception mode,
with the wrapped-call shape taken at an `isl_bool` callback return
type. -/
theorem C2_witness :
    print_method_impl genE setClassW "foreach" foreachW FunctionKind.member
      = some foreachBodyW
    ∧ cbParamW ∈ foreachW.params
    ∧ is_callback cbParamW.ty = true
    ∧ ((Gen.noexceptions genE = false →
        print_wrapped_call genE "CALL" CType.islBool =
          "    try \x7b\n"
            ++ (if is_isl_stat CType.islBool then "      " ++ "CALL" ++ ";\n"
                else "      auto ret = " ++ "CALL" ++ ";\n")
            ++ (if is_isl_stat CType.islBool then "      return isl_stat_ok;\n"
                else if is_isl_bool CType.islBool then
                  "      return ret ? isl_bool_true : isl_bool_false;\n"
                else "      return ret.release();\n")
            ++ "    \x7d catch (...) \x7b\n      data->eptr = std::current_exception();\n"
            ++ (if is_isl_stat CType.islBool then "      return isl_stat_error;\n"
                else if is_isl_bool CType.islBool then "      return isl_bool_error;\n"
                else "      return NULL;\n")
            ++ "    \x7d\n")
      ∧ (Gen.noexceptions genE = false →
        ∃ x y, print_exceptional_execution_check genE foreachW FunctionKind.member =
          x ++ ("  if (" ++ cbParamW.name ++ "_data.eptr)\n    std::rethrow_exception("
            ++ cbParamW.name ++ "_data.eptr);\n") ++ y)
      ∧ (∃ pre args rest,
          foreachBodyW = pre ++ "  auto res = " ++ foreachW.name ++ "(" ++ args ++ ");\n"
            ++ print_exceptional_execution_check genE foreachW FunctionKind.member ++ rest)
      ∧ (Gen.noexceptions genE = true →
          print_wrapped_call genE "CALL" CType.islBool =
            "    auto ret = " ++ "CALL" ++ ";\n"
              ++ (if is_isl_stat CType.islBool then "    return isl_stat(ret);\n"
                  else "    return ret.release();\n")
            ∧ print_exceptional_execution_check genE foreachW FunctionKind.member = "")) :=
  ⟨by decide, List.mem_cons_of_mem _ (List.mem_cons_self _ _), rfl,
    C2_callback_exception_protocol genE setClassW "foreach" foreachW FunctionKind.member
      foreachBodyW "CALL" CType.islBool cbParamW (by decide)
      (List.mem_cons_of_mem _ (List.mem_cons_self _ _)) rfl⟩

/-- C3: for a type-tag subclass, when a method's foreign return type
renders textually equal to the parent's wrapper type, `super2sub`
replaces it by the subclass's own wrapper type; the replaced type
appears in the method header and the generated body returns
`manage(res).as<Sub>()`; in every other case `super2sub` leaves the
rendered type unchanged. -/
theorem C3_covariant_return_narrowing (g : Gen) (clazz : IslClass) (fullname : String)
    (m : FunctionDecl) (hdr body : String)
    (hhdr : print_method_header g clazz m fullname false FunctionKind.member = some hdr)
    (hbody : print_method_impl g clazz fullname m FunctionKind.member = some body)
    (hsub : clazz.is_type_subclass = true)
    (hret : type2cppQ g.noexceptions m.retTy = some ("isl::" ++ type2cppStr clazz.name))
    (hisl : is_isl_type m.retTy = true) :
    super2sub clazz ("isl::" ++ type2cppStr clazz.name) = (true, "isl::" ++ type2cppC clazz)
    ∧ (∃ tail, hdr = "isl::" ++ type2cppC clazz ++ " " ++ type2cppC clazz ++ "::"
        ++ rename_method m.cppName ++ "(" ++ tail)
    ∧ (∃ pre, body = pre ++ "  return manage(res).as<" ++ ("isl::" ++ type2cppC clazz)
        ++ ">();\n" ++ "\x7d\n")
    ∧ (∀ (c : IslClass) (ty : String),
        c.is_type_subclass = false ∨ ty ≠ "isl::" ++ type2cppStr c.name →
        super2sub c ty = (false, ty)) := by
  have hs2 : super2sub clazz ("isl::" ++ type2cppStr clazz.name)
      = (true, "isl::" ++ type2cppC clazz) := by
    simp [super2sub, hsub]
  refine ⟨hs2, ?_, ?_, ?_⟩
  · unfold print_method_header at hhdr
    split at hhdr
    case _ rt pre ps h1 h2 h3 =>
      have hrt : rt = "isl::" ++ type2cppStr clazz.name := by
        rw [h1] at hret
        exact Option.some.inj hret
      have hpre : pre = "" := by
        simp [header_decl_pre] at h2
        exact h2.symm
      refine ⟨ps ++ ")" ++ " const" ++ "\n", ?_⟩
      rw [← Option.some.inj hhdr, hrt, hs2, hpre]
      simp [String.append_assoc, String.empty_append]
    case _ => exact absurd hhdr (by simp)
  · obtain ⟨rt, hdr2, scan, h1, _h2, _h3, hb⟩ :=
      print_method_impl_decomp g clazz fullname m FunctionKind.member body hbody
    have hrt : rt = "isl::" ++ type2cppStr clazz.name := by
      rw [h1] at hret
      exact Option.some.inj hret
    have hretp : ret_part g m FunctionKind.member (super2sub clazz rt).1
        (super2sub clazz rt).2 scan.2.2
        = "  return manage(res).as<" ++ ("isl::" ++ type2cppC clazz) ++ ">();\n" := by
      rw [hrt, hs2]
      simp [ret_part, hisl]
    refine ⟨hdr2 ++ "\x7b\n" ++ print_argument_validity_check g m FunctionKind.member
        ++ print_save_ctx g m FunctionKind.member
        ++ print_on_error_continue g m FunctionKind.member ++ scan.1
        ++ "  auto res = " ++ m.name ++ "("
        ++ method_args_go FunctionKind.member m.params m.params.length scan.2.1 0 ++ ");\n"
        ++ print_exceptional_execution_check g m FunctionKind.member, ?_⟩
    rw [hb, hretp]
    simp only [String.append_assoc]
  · intro c ty h
    rcases h with h | h
    · simp [super2sub, h]
    · cases hc : c.is_type_subclass
      · simp [super2sub, hc]
      · simp [super2sub, hc, bne_iff_ne, h]

/-- The `isl_ast_expr_id` type-tag subclass of `isl_ast_expr`, used
by the C3 witness. -/
def astExprIdW : IslClass :=
  ⟨"isl_ast_expr", "isl_ast_expr_id", some "isl_ast_expr", none, none, none, [], []⟩

/-- A member method on the subclass whose underlying function returns
the parent's C type `isl_ast_expr`. -/
def astMethodW : FunctionDecl :=
  ⟨"isl_ast_expr_foo", "foo", CType.islObj "isl_ast_expr", true,
    [⟨"obj", CType.islObj "isl_ast_expr", false⟩]⟩

/-- Witness for C3: the covariantly narrowed header and body on the
`isl_ast_expr_id` subclass. -/
theorem C3_witness :
    print_method_header genE astExprIdW astMethodW "foo" false FunctionKind.member
      = some "isl::ast_expr_id ast_expr_id::foo() const\n"
    ∧ print_method_impl genE astExprIdW "foo" astMethodW FunctionKind.member
      = some "isl::ast_expr_id ast_expr_id::foo() const\n\x7b\n  if (!ptr)\n    throw isl::exception::create(isl_error_invalid,\n        \"NULL input\", __FILE__, __LINE__);\n  options_scoped_set_on_error saved_on_error(get_ctx(), ISL_ON_ERROR_CONTINUE);\n  auto res = isl_ast_expr_foo(copy());\n  if (!res)\n    throw exception::create_from_last_error(get_ctx());\n  return manage(res).as<isl::ast_expr_id>();\n\x7d\n"
    ∧ astExprIdW.is_type_subclass = true
    ∧ type2cppQ (Gen.noexceptions genE) astMethodW.retTy
      = some ("isl::" ++ type2cppStr astExprIdW.name)
    ∧ is_isl_type astMethodW.retTy = true
    ∧ (super2sub astExprIdW ("isl::" ++ type2cppStr astExprIdW.name)
        = (true, "isl::" ++ type2cppC astExprIdW)
      ∧ (∃ tail, "isl::ast_expr_id ast_expr_id::foo() const\n"
          = "isl::" ++ type2cppC astExprIdW ++ " " ++ type2cppC astExprIdW ++ "::"
            ++ rename_method astMethodW.cppName ++ "(" ++ tail)
      ∧ (∃ pre, "isl::ast_expr_id ast_expr_id::foo() const\n\x7b\n  if (!ptr)\n    throw isl::exception::create(isl_error_invalid,\n        \"NULL input\", __FILE__, __LINE__);\n  options_scoped_set_on_error saved_on_error(get_ctx(), ISL_ON_ERROR_CONTINUE);\n  auto res = isl_ast_expr_foo(copy());\n  if (!res)\n    throw exception::create_from_last_error(get_ctx());\n  return manage(res).as<isl::ast_expr_id>();\n\x7d\n"
          = pre ++ "  return manage(res).as<" ++ ("isl::" ++ type2cppC astExprIdW)
            ++ ">();\n" ++ "\x7d\n")
      ∧ (∀ (c : IslClass) (ty : String),
          c.is_type_subclass = false ∨ ty ≠ "isl::" ++ type2cppStr c.name →
          super2sub c ty = (false, ty))) :=
  ⟨by decide, by decide, rfl, by decide, rfl,
    C3_covariant_return_narrowing genE astExprIdW "foo" astMethodW _ _
      (by decide) (by decide) rfl (by decide) rfl⟩

/-- C4: a constructor is marked implicit exactly when it has a single
parameter of (non-context) isl object type whose class is a
transitive subtype, along the declared-superclass relation, of the
class under construction; the constructor declaration header then
carries the `/* implicit */` marker, and `explicit ` otherwise.  The
hypothesis is that the worklist walk of `is_subclass` terminates
(the C++ loop is unbounded). -/
theorem C4_implicit_constructor_iff (g : Gen) (clazz : IslClass) (cons : FunctionDecl)
    (b : Bool) (hrun : is_implicit_conversion g clazz cons = some b) :
    (b = true ↔ ∃ p, cons.params = [p] ∧ is_isl_type p.ty = true ∧ is_isl_ctx p.ty = false
      ∧ Relation.TransGen (superEdge g) (pointeeName p.ty) clazz.subclass_name)
    ∧ (∀ s, print_method_header g clazz cons cons.name true FunctionKind.constructor = some s →
        ∃ tail, s = "  " ++ "inline " ++ (if b then "/* implicit */ " else "explicit ")
          ++ tail) := by
  constructor
  · unfold is_implicit_conversion at hrun
    cases hps : cons.params with
    | nil =>
        rw [hps] at hrun
        simp at hrun
        constructor
        · intro hb
          simp [hb] at hrun
        · rintro ⟨p, hp, -⟩
          exact absurd hp (by simp)
    | cons p rest =>
        rw [hps] at hrun
        cases rest with
        | cons q qs =>
            simp at hrun
            constructor
            · intro hb
              simp [hb] at hrun
            · rintro ⟨p2, hp2, -⟩
              exact absurd hp2 (by simp)
        | nil =>
            simp at hrun
            cases hT : is_isl_type p.ty <;> cases hC : is_isl_ctx p.ty <;>
              rw [hT, hC] at hrun
            case false.false =>
              simp at hrun
              constructor
              · intro hb
                simp [hb] at hrun
              · rintro ⟨p2, hp2, hT2, -, -⟩
                injection hp2 with h1 _
                subst h1
                simp [hT] at hT2
            case false.true =>
              simp at hrun
              constructor
              · intro hb
                simp [hb] at hrun
              · rintro ⟨p2, hp2, hT2, -, -⟩
                injection hp2 with h1 _
                subst h1
                simp [hT] at hT2
            case true.true =>
              simp at hrun
              constructor
              · intro hb
                simp [hb] at hrun
              · rintro ⟨p2, hp2, -, hC2, -⟩
                injection hp2 with h1 _
                subst h1
                simp [hC] at hC2
            case true.false =>
              simp at hrun
              rw [is_subclass] at hrun
              constructor
              · intro hb
                rw [hb] at hrun
                obtain ⟨x, hx, hr⟩ :=
                  is_subclass_go_sound g clazz.subclass_name g.fuel _ hrun
                exact ⟨p, rfl, hT, hC,
                  Relation.TransGen.head'_iff.mpr ⟨x, hx, hr⟩⟩
              · rintro ⟨p2, hp2, -, -, htg⟩
                injection hp2 with h1 _
                subst h1
                obtain ⟨x, hx, hr⟩ := Relation.TransGen.head'_iff.mp htg
                cases b with
                | true => rfl
                | false =>
                    exact absurd hr
                      (is_subclass_go_complete g clazz.subclass_name g.fuel _ hrun x hx)
  · intro s hs
    unfold print_method_header at hs
    split at hs
    case _ rt pre ps h1 h2 h3 =>
      have hpre : pre = "  " ++ "inline "
          ++ (if b then "/* implicit */ " else "explicit ") := by
        unfold header_decl_pre at h2
        rw [hrun] at h2
        simp at h2
        rw [← h2]
        rfl
      refine ⟨type2cppC clazz ++ "(" ++ ps ++ ")" ++ ";" ++ "\n", ?_⟩
      rw [← Option.some.inj hs, hpre]
      simp [String.append_assoc, String.append_empty, String.empty_append]
    case _ => exact absurd hs (by simp)

/-- Witness fixtures for C4: `isl_set` constructed from a single
`isl_basic_set` parameter, where `isl_basic_set` declares `isl_set`
as a superclass. -/
def genSub : Gen :=
  ⟨false, fun s => if s = "isl_basic_set" then ["isl_set"] else [], 3⟩

/-- The constructor `isl_set_from_basic_set`. -/
def fromBsetW : FunctionDecl :=
  ⟨"isl_set_from_basic_set", "from_basic_set", CType.islObj "isl_set", true,
    [⟨"bset", CType.islObj "isl_basic_set", false⟩]⟩

/-- Witness for C4 at `fromBsetW`, which is implicit. -/
theorem C4_witness :
    is_implicit_conversion genSub setClassW fromBsetW = some true
    ∧ ((true = true ↔ ∃ p, fromBsetW.params = [p] ∧ is_isl_type p.ty = true
        ∧ is_isl_ctx p.ty = false
        ∧ Relation.TransGen (superEdge genSub) (pointeeName p.ty) setClassW.subclass_name)
      ∧ (∀ s, print_method_header genSub setClassW fromBsetW fromBsetW.name true
            FunctionKind.constructor = some s →
          ∃ tail, s = "  " ++ "inline "
            ++ (if true then "/* implicit */ " else "explicit ") ++ tail)) :=
  ⟨by decide,
    C4_implicit_constructor_iff genSub setClassW fromBsetW true (by decide)⟩

/-- Status-code-mode generator state. -/
def genN : Gen := ⟨true, fun _ => [], 0⟩

/-- The type-tag function `isl_ast_expr_get_type`. -/
def fnTypeW : FunctionDecl :=
  ⟨"isl_ast_expr_get_type", "get_type", CType.enumTy "isl_ast_expr_type", false, []⟩

/-- The `isl_ast_expr` superclass carrying a type-tag function. -/
def astSuperW : IslClass :=
  ⟨"isl_ast_expr", "isl_ast_expr", some "isl_ast_expr", some fnTypeW, none, none, [], []⟩

/-- C6, evaluated at the failing input (status-code mode, a class
with a type-tag function): the emitted `isa` compares the tag
function's result on the handle with `T::type` and returns an invalid
`isl::boolean` on a null receiver, but the null guard emitted inside
`as` is the statement `T();` with no `return` — a no-op — although
the generator's own comment promises that an invalid object is
returned; the exception-mode output and the absence of both methods
on a class without a type-tag function are evaluated alongside. -/
theorem C6_downcast_noexceptions_guard_is_noop :
    print_downcast_impl genN astSuperW =
      (true,
        "template <class T>\nisl::boolean ast_expr::isa()\n\x7b\n  if (is_null())\n    return isl::boolean();\n  return isl_ast_expr_get_type(get()) == T::type;\n\x7d\ntemplate <class T>\nT ast_expr::as()\n\x7b\n  if (is_null())\n    T();\n  return isa<T>() ? T(copy()) : T();\n\x7d\n")
    ∧ print_downcast_impl genE astSuperW =
      (true,
        "template <class T>\nbool ast_expr::isa()\n\x7b\n  if (is_null())\n    throw isl::exception::create(isl_error_invalid,\n        \"NULL input\", __FILE__, __LINE__);\n  return isl_ast_expr_get_type(get()) == T::type;\n\x7d\ntemplate <class T>\nT ast_expr::as()\n\x7b\n  return isa<T>() ? T(copy()) : T();\n\x7d\n")
    ∧ print_downcast_decl genN astSuperW =
      "  template <class T> inline isl::boolean isa();\n  template <class T> inline T as();\n"
    ∧ print_downcast_impl genN setClassW = (false, "")
    ∧ print_downcast_decl genN setClassW = "" :=
  ⟨by decide, by decide, by decide, rfl, rfl⟩

/-- `std::map::operator[]` on a present key returns the mapped value
and leaves the map unchanged. -/
theorem mapIndex_present (m : ClassMap) (k : String) (c : IslClass)
    (h : mapFind m k = some c) : mapIndex m k = (c, m) := by
  rw [mapIndex, h]

theorem pushAll_cons (m : ClassMap) (k : String) (ks : List String) :
    pushAll m (k :: ks) = pushAll (mapIndex m k).2 ks := rfl

/-- Pushing only present keys onto the worklist leaves the classes
map unchanged. -/
theorem pushAll_present (m : ClassMap) :
    ∀ ks, (∀ k ∈ ks, (mapFind m k).isSome = true) → pushAll m ks = m := by
  intro ks
  induction ks with
  | nil => intro _; rfl
  | cons k ks ih =>
      intro h
      obtain ⟨c, hc⟩ := Option.isSome_iff_exists.mp (h k (List.mem_cons_self k ks))
      rw [pushAll_cons, mapIndex_present m k c hc]
      exact ih (fun k2 hk2 => h k2 (List.mem_cons_of_mem k hk2))

/-- A successful lookup is a map entry. -/
theorem mapFind_mem (m : ClassMap) (k : String) (c : IslClass)
    (h : mapFind m k = some c) : (k, c) ∈ m := by
  unfold mapFind at h
  obtain ⟨e, he, hc⟩ := Option.map_eq_some'.mp h
  have hmem := List.mem_of_find?_eq_some he
  have hp := List.find?_some he
  have hk : e.1 = k := by simpa using hp
  have he2 : e = (k, c) := by
    cases e
    simp only at hk hc
    rw [hk, hc]
  rw [← he2]
  exact hmem

/-- On a map containing every type name it consults, the subclass
worklist loop never mutates the classes map. -/
theorem is_subclassS_go_closed (fsup : Option String → List String) (tgt : String) :
    ∀ fuel wl (m : ClassMap),
      (∀ e ∈ m, ∀ s ∈ fsup e.2.type, (mapFind m s).isSome = true) →
      (∀ c ∈ wl, (mapFind m c).isSome = true) →
      ∀ b m2, is_subclassS_go fsup tgt fuel wl m = some (b, m2) → m2 = m := by
  intro fuel
  induction fuel with
  | zero =>
      intro wl m hcl hwl b m2 h
      cases wl with
      | nil =>
          simp [is_subclassS_go] at h
          exact h.2.symm
      | cons c rest => simp [is_subclassS_go] at h
  | succ f ih =>
      intro wl m hcl hwl b m2 h
      cases wl with
      | nil =>
          simp [is_subclassS_go] at h
          exact h.2.symm
      | cons c rest =>
          rw [is_subclassS_go] at h
          by_cases hc : c = tgt
          · rw [if_pos hc] at h
            exact (Prod.mk.injEq _ _ _ _ ▸ Option.some.inj h).2.symm
          · rw [if_neg hc] at h
            obtain ⟨cl, hcl2⟩ :=
              Option.isSome_iff_exists.mp (hwl c (List.mem_cons_self c rest))
            simp only [hcl2, Option.getD_some] at h
            have hmem := mapFind_mem m c cl hcl2
            have hsups : ∀ s ∈ fsup cl.type, (mapFind m s).isSome = true :=
              hcl (c, cl) hmem
            rw [pushAll_present m (fsup cl.type) hsups] at h
            refine ih (fsup cl.type ++ rest) m hcl ?_ b m2 h
            intro x hx
            rcases List.mem_append.mp hx with hx1 | hx2
            · exact hsups x hx1
            · exact hwl x (List.mem_cons_of_mem c hx2)

/-- C9's amended statement: provided every type name the subclass
walk consults is already a key of the classes map (which the
fully-resolved input contract guarantees), the walk returns the map
exactly as it received it — no entity of the model is mutated. -/
theorem C9_subclass_walk_preserves_resolved_map
    (fsup : Option String → List String) (fuel : Nat) (sub tgt : String)
    (m : ClassMap) (b : Bool) (m2 : ClassMap)
    (hsub : (mapFind m sub).isSome = true)
    (hclosed : ∀ e ∈ m, ∀ s ∈ fsup e.2.type, (mapFind m s).isSome = true)
    (hrun : is_subclassS fsup fuel sub tgt m = some (b, m2)) :
    m2 = m := by
  obtain ⟨c0, hc0⟩ := Option.isSome_iff_exists.mp hsub
  rw [is_subclassS] at hrun
  simp only [mapIndex_present m sub c0 hc0] at hrun
  have hsups : ∀ s ∈ fsup c0.type, (mapFind m s).isSome = true :=
    hclosed (sub, c0) (mapFind_mem m sub c0 hc0)
  rw [pushAll_present m (fsup c0.type) hsups] at hrun
  exact is_subclassS_go_closed fsup tgt fuel (fsup c0.type) m hclosed hsups b m2 hrun

/-- The superclass declarations consulted by the C9 fixtures:
`isl_basic_set` declares `isl_set` as its superclass. -/
def fsup9 : Option String → List String :=
  fun t => if t = some "isl_basic_set" then ["isl_set"] else []

/-- The `isl_basic_set` class of the C9 fixtures. -/
def bsetC9 : IslClass :=
  ⟨"isl_basic_set", "isl_basic_set", some "isl_basic_set", none, none, none, [], []⟩

/-- A resolved classes map containing both fixture classes. -/
def map9 : ClassMap := [("isl_basic_set", bsetC9), ("isl_set", setClassW)]

/-- A classes map missing the `isl_foo` type that the walk below
consults. -/
def map9small : ClassMap := [("isl_set", setClassW)]

/-- C9 counterexample: running the subclass walk for the unknown type
name `isl_foo` inserts a default-constructed entry into the classes
map (the `std::map::operator[]` of cpp.cc line 1743), so the model is
not left identical by emission: the map afterwards has one entry
more. -/
theorem C9_counterexample :
    is_subclassS fsup9 5 "isl_foo" "isl_set" map9small
      = some (false, map9small ++ [("isl_foo", defaultIslClass)])
    ∧ (map9small ++ [("isl_foo", defaultIslClass)]).length ≠ map9small.length :=
  ⟨by rfl, by decide⟩

/-- Witness for C10 at the type-tag subclass `astExprIdW`. -/
theorem C10_witness :
    astExprIdW.is_type_subclass = true
    ∧ print_ptr_decl astExprIdW =
        (if astExprIdW.is_type_subclass then ""
         else
           "  inline __isl_give " ++ astExprIdW.name ++ " *copy() const &;\n"
             ++ "  inline __isl_give " ++ astExprIdW.name ++ " *copy() && = delete;\n"
             ++ "  inline __isl_keep " ++ astExprIdW.name ++ " *get() const;\n"
             ++ "  inline __isl_give " ++ astExprIdW.name ++ " *release();\n"
             ++ "  inline bool is_null() const;\n"
             ++ "  inline explicit operator bool() const;\n")
    ∧ print_ptr_impl astExprIdW = "" :=
  ⟨rfl, (C10_copy_deleted_on_rvalues astExprIdW).1,
    (C10_copy_deleted_on_rvalues astExprIdW).2 rfl⟩

/-- Witness for C9's amended statement on the resolved map `map9`. -/
theorem C9_witness :
    (mapFind map9 "isl_basic_set").isSome = true
    ∧ (∀ e ∈ map9, ∀ s ∈ fsup9 e.2.type, (mapFind map9 s).isSome = true)
    ∧ is_subclassS fsup9 5 "isl_basic_set" "isl_set" map9 = some (true, map9)
    ∧ map9 = map9 :=
  ⟨rfl, by decide, rfl,
    C9_subclass_walk_preserves_resolved_map fsup9 5 "isl_basic_set" "isl_set"
      map9 true map9 rfl (by decide) rfl⟩

/-- Witness for C8 at an empty class list in status-code mode. -/
theorem C8_witness :
    print_declarations ⟨true, fun _ => [], 0⟩ [] = some ""
    ∧ print_implementations ⟨true, fun _ => [], 0⟩ [] = some ""
    ∧ generate ⟨true, fun _ => [], 0⟩ [] =
        some ("\n"
          ++ "namespace isl \x7b\n\n"
          ++ (if (true : Bool) then "inline namespace noexceptions \x7b\n\n" else "")
          ++ print_forward_declarations []
          ++ "\n"
          ++ ""
          ++ "\n"
          ++ ""
          ++ (if (true : Bool) then "\x7d // namespace noexceptions\n" else "")
          ++ "\x7d // namespace isl\n") :=
  ⟨rfl, rfl, C8_output_structure ⟨true, fun _ => [], 0⟩ [] "" "" rfl rfl⟩

end IslCpp
